import Mathlib

/-!
Shallow embedding of the Speex Conan recipe
(src/third_party/speex/conanfile.py) and proofs of its specified
properties.  Pure data is modelled with Lean structures; the mutable
option set, settings and filesystem layout are passed explicitly through
the lifecycle hooks.  The Conan file helpers rm and rmdir treat a missing
file or directory as success, so they are modelled as total functions.
-/

/-- Target settings relevant to the recipe: the os field, and the two
compiler subsettings that the configure hook removes (an absent
subsetting is modelled as none). -/
structure Settings where
  os : String
  compiler_libcxx : Option String
  compiler_cppstd : Option String
  deriving DecidableEq, Repr

/-- Declared option set of the recipe: shared is always present; fPIC is
present unless a hook deleted it (an absent fPIC is modelled as none). -/
structure OptionSet where
  shared : Bool
  fPIC : Option Bool
  deriving DecidableEq, Repr

/-- Declared defaults of the recipe: shared = False, fPIC = True. -/
def default_options : OptionSet := { shared := false, fPIC := some true }

/-- Failure kinds surfaced by the lifecycle hooks. -/
inductive RecipeError where
  | FetchError
  | ConfigurationError
  deriving DecidableEq, Repr

/-- Python del on the fPIC attribute: removes the option when it is
present and raises when it is absent. -/
def del_fPIC (o : OptionSet) : Except RecipeError OptionSet :=
  if o.fPIC.isSome then .ok { o with fPIC := none } else .error .ConfigurationError

/-- config_options hook: on Windows, delete the fPIC option; on every
other platform leave the option set unchanged. -/
def config_options (s : Settings) (o : OptionSet) : Except RecipeError OptionSet :=
  if s.os = "Windows" then del_fPIC o else .ok o

/-- rm_safe on the fPIC option: removes it when present, is a no-op when
it is already absent, and never raises. -/
def rm_safe_fPIC (o : OptionSet) : OptionSet := { o with fPIC := none }

/-- configure hook: when shared is selected, rm_safe the fPIC option;
then rm_safe the compiler.libcxx and compiler.cppstd subsettings.  The
hook returns the updated settings and the updated option set. -/
def configure (s : Settings) (o : OptionSet) : Settings × OptionSet :=
  ({ s with compiler_libcxx := none, compiler_cppstd := none },
   if o.shared then rm_safe_fPIC o else o)

/-- layout hook: basic_layout declares the source folder. -/
def src_folder : String := "src"

/-- Download descriptor held by the version map: url and checksum. -/
structure SourceDesc where
  url : String
  sha256 : String
  deriving DecidableEq, Repr

/-- Modelled from the spec: the version-to-source mapping is an external
data file keyed by version string (it is not present under src).  Per the
recipe header the packaged version is 1.2.1; a version with no entry maps
to none. -/
def conan_data_sources (v : String) : Option SourceDesc :=
  if v = "1.2.1" then
    some { url := "https://downloads.xiph.org/releases/speex/speex-1.2.1.tar.gz",
           sha256 := "checksum-speex-1.2.1" }
  else none

/-- Entry of an extracted archive: a file, or a directory with children. -/
inductive FsEntry where
  | file (name : String)
  | dir (name : String) (children : List FsEntry)

/-- Modelled from the spec: the get helper with strip_root strips the
single redundant top-level wrapping directory of the archive, so that the
children land directly at the destination; an archive whose top level is
not a single directory fails the extraction. -/
def strip_root_extract (contents : List FsEntry) : Except RecipeError (List FsEntry) :=
  match contents with
  | [FsEntry.dir _ children] => .ok children
  | _ => .error .FetchError

/-- Extracted source tree: its root folder and its contents. -/
structure SourceTree where
  root : String
  contents : List FsEntry

/-- source hook: look the version up in the version map (failing with
FetchError when it has no entry), then extract the fetched archive into
the declared source folder with strip_root.  The archive contents are an
input, since the network is an external collaborator. -/
def source_hook (v : String) (archive : List FsEntry) : Except RecipeError SourceTree :=
  match conan_data_sources v with
  | none => .error .FetchError
  | some _ =>
      (strip_root_extract archive).map (fun cs => { root := src_folder, contents := cs })

/-- Composition of the source hook with the subsequent build hook: the
orchestrator aborts the lifecycle on failure, so build runs only on a
successfully acquired source tree. -/
def source_then_build (v : String) (archive : List FsEntry)
    (build_fn : SourceTree → Bool) : Except RecipeError Bool :=
  (source_hook v archive).map build_fn

/-- Project options of the emitted Meson toolchain: a string-keyed
dictionary, modelled as a total lookup function. -/
def ProjectOptions : Type := String → Option String

/-- Dictionary assignment on project options. -/
def dict_set (k v : String) (d : ProjectOptions) : ProjectOptions :=
  fun x => if x = k then some v else d x

/-- generate hook, toolchain part: set the project options tools and
test-binaries to disabled in the emitted toolchain description. -/
def generate_toolchain (d0 : ProjectOptions) : ProjectOptions :=
  dict_set "test-binaries" "disabled" (dict_set "tools" "disabled" d0)

/-- Fields of the package folder that the package hook touches: the file
names under licenses, existence of the lib/pkgconfig and share
directories, and the file names directly under lib and bin. -/
structure PackageLayout where
  licenses : Finset String
  lib_pkgconfig : Bool
  share : Bool
  lib : Finset String
  bin : Finset String
  deriving DecidableEq

/-- What meson install writes into the package folder.  It is determined
by the built artifacts alone, and installing overwrites files already in
place, so re-installing the same artifacts adds nothing new. -/
structure InstallOutput where
  pkgconfig : Bool
  share : Bool
  lib : Finset String
  bin : Finset String
  deriving DecidableEq

/-- copy of the COPYING pattern from the source folder into the licenses
directory of the package folder; copying overwrites an existing file. -/
def copy_COPYING (srcFiles : Finset String) (L : PackageLayout) : PackageLayout :=
  if "COPYING" ∈ srcFiles then { L with licenses := insert "COPYING" L.licenses } else L

/-- meson install step: merges the install output into the layout,
overwriting what is already there. -/
def meson_install (A : InstallOutput) (L : PackageLayout) : PackageLayout :=
  { L with
    lib_pkgconfig := L.lib_pkgconfig || A.pkgconfig,
    share := L.share || A.share,
    lib := L.lib ∪ A.lib,
    bin := L.bin ∪ A.bin }

/-- rmdir on lib/pkgconfig: removes the directory when it exists; a
missing directory is success, not an error. -/
def rmdir_lib_pkgconfig (L : PackageLayout) : PackageLayout :=
  { L with lib_pkgconfig := false }

/-- rmdir on share: removes the directory when it exists; a missing
directory is success, not an error. -/
def rmdir_share (L : PackageLayout) : PackageLayout :=
  { L with share := false }

/-- Match of a file name against the *.pdb pattern. -/
def isPdb (f : String) : Bool := f.endsWith ".pdb"

/-- rm of the *.pdb pattern in a directory: removes every matching file;
matching nothing is success, not an error. -/
def rm_pdb (files : Finset String) : Finset String :=
  files.filter (fun f => ¬ isPdb f)

/-- Pruning part of the package hook: rmdir lib/pkgconfig, rmdir share,
rm *.pdb under lib, rm *.pdb under bin, in that order. -/
def prune_layout (L : PackageLayout) : PackageLayout :=
  let L1 := rmdir_lib_pkgconfig L
  let L2 := rmdir_share L1
  let L3 := { L2 with lib := rm_pdb L2.lib }
  { L3 with bin := rm_pdb L3.bin }

/-- package hook: first copy the COPYING license file, then run meson
install, then prune. -/
def package_hook (srcFiles : Finset String) (A : InstallOutput)
    (L : PackageLayout) : PackageLayout :=
  prune_layout (meson_install A (copy_COPYING srcFiles L))

/-- Exported package metadata. -/
structure CppInfo where
  libs : List String
  system_libs : List String
  pkg_config_name : Option String
  cmake_file_name : Option String
  cmake_target_name : Option String
  deriving DecidableEq, Repr

/-- Fresh cpp_info handed to package_info: empty lists, no properties. -/
def empty_cpp_info : CppInfo :=
  { libs := [], system_libs := [],
    pkg_config_name := none, cmake_file_name := none, cmake_target_name := none }

/-- package_info hook: set libs to the single entry speex, set the
pkg-config, build-system file and target names, and append the math
library m to system_libs when the target os is Linux or FreeBSD. -/
def package_info (s : Settings) : CppInfo :=
  let c1 := { empty_cpp_info with libs := ["speex"] }
  let c2 := { c1 with pkg_config_name := some "speex" }
  let c3 := { c2 with cmake_file_name := some "Speex" }
  let c4 := { c3 with cmake_target_name := some "Speex::speex" }
  if s.os ∈ (["Linux", "FreeBSD"] : List String) then
    { c4 with system_libs := c4.system_libs ++ ["m"] }
  else c4

/-- Helper: rm of *.pdb absorbs an earlier rm of *.pdb on the left part
of a union. -/
theorem rm_pdb_union_absorb (X B : Finset String) :
    rm_pdb (rm_pdb X ∪ B) = rm_pdb (X ∪ B) := by
  apply Finset.ext
  intro f
  simp only [rm_pdb, Finset.mem_filter, Finset.mem_union]
  constructor
  · rintro ⟨h1 | h2, h3⟩
    · exact ⟨Or.inl h1.1, h1.2⟩
    · exact ⟨Or.inr h2, h3⟩
  · rintro ⟨h1 | h2, h3⟩
    · exact ⟨Or.inl ⟨h1, h3⟩, h3⟩
    · exact ⟨Or.inr h2, h3⟩

/-- Helper: the copy of COPYING leaves the lib files unchanged. -/
theorem copy_COPYING_lib (srcFiles : Finset String) (L : PackageLayout) :
    (copy_COPYING srcFiles L).lib = L.lib := by
  unfold copy_COPYING
  split <;> rfl

/-- Helper: the copy of COPYING leaves the bin files unchanged. -/
theorem copy_COPYING_bin (srcFiles : Finset String) (L : PackageLayout) :
    (copy_COPYING srcFiles L).bin = L.bin := by
  unfold copy_COPYING
  split <;> rfl

/-- Helper: the licenses directory after the copy of COPYING. -/
theorem copy_COPYING_licenses (srcFiles : Finset String) (L : PackageLayout) :
    (copy_COPYING srcFiles L).licenses =
      if "COPYING" ∈ srcFiles then insert "COPYING" L.licenses else L.licenses := by
  unfold copy_COPYING
  split <;> simp_all

/-- Helper: the package hook, written out field by field. -/
theorem package_hook_eq (srcFiles : Finset String) (A : InstallOutput) (L : PackageLayout) :
    package_hook srcFiles A L =
      { licenses := (copy_COPYING srcFiles L).licenses,
        lib_pkgconfig := false,
        share := false,
        lib := rm_pdb ((copy_COPYING srcFiles L).lib ∪ A.lib),
        bin := rm_pdb ((copy_COPYING srcFiles L).bin ∪ A.bin) } := rfl

/-- C1: on every target platform other than Windows, config_options keeps
the declared option set, in which fPIC is present with default value true;
on Windows config_options deletes fPIC, and the only later hook that
touches options, configure, keeps an absent fPIC absent. -/
theorem C1_fPIC_presence (s : Settings) :
    (s.os ≠ "Windows" →
      config_options s default_options = .ok default_options ∧
      default_options.fPIC = some true) ∧
    (s.os = "Windows" →
      config_options s default_options = .ok { default_options with fPIC := none } ∧
      ∀ o : OptionSet, o.fPIC = none → ((configure s o).2).fPIC = none) := by
  constructor
  · intro h
    exact ⟨by simp [config_options, h], rfl⟩
  · intro h
    refine ⟨by simp [config_options, h, del_fPIC, default_options], ?_⟩
    intro o ho
    cases hsh : o.shared <;> simp [configure, rm_safe_fPIC, hsh, ho]

/-- Witness for C1 at the concrete platforms Linux and Windows. -/
theorem C1_fPIC_presence_witness :
    config_options { os := "Linux", compiler_libcxx := none, compiler_cppstd := none }
        default_options = .ok default_options ∧
    config_options { os := "Windows", compiler_libcxx := none, compiler_cppstd := none }
        default_options = .ok { default_options with fPIC := none } :=
  ⟨((C1_fPIC_presence _).1 (by decide)).1, ((C1_fPIC_presence _).2 rfl).1⟩

/-- C2: whenever the shared option is true, the option set returned by the
configure hook has no fPIC option, whatever the platform settings are. -/
theorem C2_shared_removes_fPIC (s : Settings) (o : OptionSet) (h : o.shared = true) :
    ((configure s o).2).fPIC = none := by
  simp [configure, h, rm_safe_fPIC]

/-- Witness for C2 at a concrete shared configuration. -/
theorem C2_shared_removes_fPIC_witness :
    ((configure { os := "Macos", compiler_libcxx := none, compiler_cppstd := none }
        { shared := true, fPIC := some true }).2).fPIC = none :=
  C2_shared_removes_fPIC _ _ rfl

/-- C3: the package hook is the composition copy-license, then meson
install, then pruning; its result always keeps the copied COPYING license,
has no lib/pkgconfig directory, no share directory, and no *.pdb file
under lib or bin. -/
theorem C3_package_layout (srcFiles : Finset String) (A : InstallOutput) (L : PackageLayout) :
    package_hook srcFiles A L = prune_layout (meson_install A (copy_COPYING srcFiles L)) ∧
    ("COPYING" ∈ srcFiles → "COPYING" ∈ (package_hook srcFiles A L).licenses) ∧
    (package_hook srcFiles A L).lib_pkgconfig = false ∧
    (package_hook srcFiles A L).share = false ∧
    (∀ f ∈ (package_hook srcFiles A L).lib, ¬ isPdb f) ∧
    (∀ f ∈ (package_hook srcFiles A L).bin, ¬ isPdb f) := by
  refine ⟨rfl, ?_, rfl, rfl, ?_, ?_⟩
  · intro h
    rw [package_hook_eq]
    simp only [copy_COPYING_licenses, if_pos h]
    exact Finset.mem_insert_self _ _
  · intro f hf
    rw [package_hook_eq] at hf
    exact (Finset.mem_filter.mp hf).2
  · intro f hf
    rw [package_hook_eq] at hf
    exact (Finset.mem_filter.mp hf).2

/-- Witness for C3 at a concrete source tree, install output and layout. -/
theorem C3_package_layout_witness :
    "COPYING" ∈ (package_hook (insert "COPYING" ∅)
        { pkgconfig := true, share := true,
          lib := insert "libspeex.a" (insert "speex.pdb" ∅),
          bin := insert "speex.pdb" ∅ }
        { licenses := ∅, lib_pkgconfig := false, share := false,
          lib := ∅, bin := ∅ }).licenses :=
  (C3_package_layout _ _ _).2.1 (by decide)

/-- C4: the package hook is idempotent: a second run on its own output,
with the same source files and install output, returns the same layout,
and in particular every removal step succeeds on the already-pruned
layout because removing a missing file or directory is success. -/
theorem C4_package_idempotent (srcFiles : Finset String) (A : InstallOutput) (L : PackageLayout) :
    package_hook srcFiles A (package_hook srcFiles A L) = package_hook srcFiles A L := by
  rw [package_hook_eq srcFiles A (package_hook srcFiles A L), package_hook_eq srcFiles A L]
  have hcl : ∀ M : PackageLayout, (copy_COPYING srcFiles M).lib = M.lib := fun M =>
    copy_COPYING_lib srcFiles M
  have hcb : ∀ M : PackageLayout, (copy_COPYING srcFiles M).bin = M.bin := fun M =>
    copy_COPYING_bin srcFiles M
  refine PackageLayout.mk.injEq .. ▸ ?_
  refine ⟨?_, rfl, rfl, ?_, ?_⟩
  · rw [copy_COPYING_licenses, copy_COPYING_licenses]
    by_cases h : "COPYING" ∈ srcFiles <;> simp [h]
  · rw [hcl, hcl]
    show rm_pdb (rm_pdb (L.lib ∪ A.lib) ∪ A.lib) = rm_pdb (L.lib ∪ A.lib)
    rw [rm_pdb_union_absorb, Finset.union_assoc, Finset.union_self]
  · rw [hcb, hcb]
    show rm_pdb (rm_pdb (L.bin ∪ A.bin) ∪ A.bin) = rm_pdb (L.bin ∪ A.bin)
    rw [rm_pdb_union_absorb, Finset.union_assoc, Finset.union_self]

/-- C5: package_info always exports libs equal to the single entry speex,
the pkg-config name speex, the build-system file name Speex and target
name Speex::speex; and system_libs carries the math library m exactly
when the target os is Linux or FreeBSD, in particular never on Windows. -/
theorem C5_package_info_metadata (s : Settings) :
    (package_info s).libs = ["speex"] ∧
    (package_info s).pkg_config_name = some "speex" ∧
    (package_info s).cmake_file_name = some "Speex" ∧
    (package_info s).cmake_target_name = some "Speex::speex" ∧
    ((package_info s).system_libs = ["m"] ↔ (s.os = "Linux" ∨ s.os = "FreeBSD")) ∧
    (s.os = "Windows" → (package_info s).system_libs = []) := by
  unfold package_info empty_cpp_info
  by_cases h : s.os ∈ (["Linux", "FreeBSD"] : List String)
  · have hor : s.os = "Linux" ∨ s.os = "FreeBSD" := by
      simpa using h
    refine ⟨by simp [h], by simp [h], by simp [h], by simp [h], by simp [h, hor], ?_⟩
    intro hw
    rcases hor with h1 | h1 <;> rw [hw] at h1 <;> exact absurd h1 (by decide)
  · have hor : ¬ (s.os = "Linux" ∨ s.os = "FreeBSD") := by
      simpa using h
    exact ⟨by simp [h], by simp [h], by simp [h], by simp [h],
      by simp [h, hor], by intro hw; simp [h]⟩

/-- Witness for C5 at the concrete platform Windows. -/
theorem C5_package_info_metadata_witness :
    (package_info ⟨"Windows", none, none⟩).system_libs = [] :=
  (C5_package_info_metadata _).2.2.2.2.2 rfl

/-- C6: a version with no entry in the version-to-source mapping makes
the source hook fail with FetchError, for every fetched archive, and the
composed source-then-build run returns that FetchError no matter what the
build step would compute, so the build step never runs. -/
theorem C6_unknown_version_fetch_error (v : String) (h : conan_data_sources v = none) :
    (∀ archive, source_hook v archive = .error .FetchError) ∧
    (∀ (archive : List FsEntry) (build_fn : SourceTree → Bool),
      source_then_build v archive build_fn = .error .FetchError) := by
  constructor
  · intro archive
    simp [source_hook, h]
  · intro archive build_fn
    simp [source_then_build, source_hook, h, Except.map]

/-- Witness for C6 at the unknown version 9.9.9. -/
theorem C6_unknown_version_fetch_error_witness :
    source_hook "9.9.9" [] = .error .FetchError :=
  (C6_unknown_version_fetch_error "9.9.9" (by decide)).1 []

/-- C7: for a version known to the mapping, the source hook extracts the
archive with its single top-level wrapping directory stripped: the result
roots the children at the declared source folder, which layout fixes to
the src directory. -/
theorem C7_strip_root (v : String) (d : SourceDesc) (h : conan_data_sources v = some d)
    (w : String) (children : List FsEntry) :
    source_hook v [FsEntry.dir w children] =
      .ok { root := src_folder, contents := children } ∧
    src_folder = "src" := by
  refine ⟨?_, rfl⟩
  simp [source_hook, h, strip_root_extract, Except.map]

/-- Witness for C7 at version 1.2.1 and a concrete wrapped archive. -/
theorem C7_strip_root_witness :
    source_hook "1.2.1" [FsEntry.dir "speex-1.2.1" [FsEntry.file "COPYING"]] =
      .ok { root := src_folder, contents := [FsEntry.file "COPYING"] } :=
  (C7_strip_root "1.2.1"
    { url := "https://downloads.xiph.org/releases/speex/speex-1.2.1.tar.gz",
      sha256 := "checksum-speex-1.2.1" }
    rfl "speex-1.2.1" [FsEntry.file "COPYING"]).1

/-- C8: whatever project options the toolchain starts from, the generate
hook leaves the options tools and test-binaries both set to disabled in
the emitted toolchain description. -/
theorem C8_generate_disables_components (d0 : ProjectOptions) :
    generate_toolchain d0 "tools" = some "disabled" ∧
    generate_toolchain d0 "test-binaries" = some "disabled" := by
  constructor <;> simp [generate_toolchain, dict_set]

/-- C9: the configure hook removes the compiler.libcxx and
compiler.cppstd subsettings on every invocation, for every platform and
option values, while leaving the os setting unchanged. -/
theorem C9_configure_prunes_compiler_settings (s : Settings) (o : OptionSet) :
    ((configure s o).1).compiler_libcxx = none ∧
    ((configure s o).1).compiler_cppstd = none ∧
    ((configure s o).1).os = s.os := by
  exact ⟨rfl, rfl, rfl⟩

/-- C10: on Windows, config_options already deletes a present fPIC
option, the later rm_safe removal of fPIC in configure is a no-op on the
result rather than an error, and after configure the option is still
absent; the double removal never raises. -/
theorem C10_windows_double_removal_safe (s : Settings) (o : OptionSet)
    (h : s.os = "Windows") (hp : o.fPIC.isSome) :
    config_options s o = .ok (rm_safe_fPIC o) ∧
    rm_safe_fPIC (rm_safe_fPIC o) = rm_safe_fPIC o ∧
    ((configure s (rm_safe_fPIC o)).2).fPIC = none := by
  refine ⟨?_, rfl, ?_⟩
  · simp [config_options, h, del_fPIC, hp, rm_safe_fPIC]
  · cases hsh : o.shared <;> simp [configure, rm_safe_fPIC, hsh]

/-- Witness for C10 at Windows with shared true and fPIC present. -/
theorem C10_windows_double_removal_safe_witness :
    config_options { os := "Windows", compiler_libcxx := none, compiler_cppstd := none }
        { shared := true, fPIC := some true }
      = .ok (rm_safe_fPIC { shared := true, fPIC := some true }) :=
  (C10_windows_double_removal_safe
    { os := "Windows", compiler_libcxx := none, compiler_cppstd := none }
    { shared := true, fPIC := some true } rfl rfl).1
